import Mathlib

/-
Verification of the Terraform provider resource adapters for Octopus Deploy:
deployment processes (src/unnamed/part_000), project deployment-target
triggers (src/octopusdeploy/resource_project_deployment_target_trigger.go)
and lifecycles (src/unnamed/part_001).

The Go handlers are embedded shallowly: Terraform ResourceData becomes a
typed record per resource, the remote API client becomes a record of
response oracles, and each CRUD handler becomes a pure function returning
the diagnostic (if any), the updated local state, and the list of API calls
it issued, in order.
-/

namespace Octopusdeploy

/-- Errors returned by the remote API client. -/
inductive ApiErr
  | notFound
  | other (msg : String)
  deriving DecidableEq

/-- Terraform diagnostics produced by a handler: diag.FromErr on a remote API
error, diag.FromErr on a plain Go error carrying a message, or diag.Errorf. -/
inductive Diag
  | fromApiErr (e : ApiErr)
  | fromErrMsg (msg : String)
  | errorf (msg : String)
  deriving DecidableEq

/-- Go regexp character class w restricted to ASCII, as Go regexp uses it:
letters, digits and underscore. -/
def isWordChar (c : Char) : Bool :=
  c.isAlphanum || c == '_'

/-- Attempt to match the Go pattern d+-w+ anchored at the head of the list:
a maximal nonempty digit run, a hyphen, then a maximal nonempty word-char run
(greedy quantifiers; the character classes are disjoint from the hyphen, so
the greedy run is the only viable one). -/
def matchNumDashWordAt (l : List Char) : Option (List Char) :=
  let ds := l.takeWhile Char.isDigit
  if ds.isEmpty then none
  else
    match l.drop ds.length with
    | '-' :: r2 =>
      let ws := r2.takeWhile isWordChar
      if ws.isEmpty then none else some (ds ++ '-' :: ws)
    | _ => none

/-- regexp.FindString for the Go pattern d+-w+: the match at the leftmost
position where one exists, the empty string otherwise. -/
def findNumDashWord : List Char → List Char
  | [] => []
  | c :: t =>
    match matchNumDashWordAt (c :: t) with
    | some m => m
    | none => findNumDashWord t

/-- Go strings.SplitAfter with a single-character separator: splits after
each instance of the separator, keeping it at the end of each piece. -/
def splitAfterChar : List Char → Char → List (List Char)
  | [], _ => [[]]
  | c :: t, sep =>
    if c == sep then
      [c] :: splitAfterChar t sep
    else
      match splitAfterChar t sep with
      | [] => [[c]]
      | h :: r => (c :: h) :: r

/-- getGitRef from the deployment-process resource file: run FindString for
the pattern d+-w+ over the stored identifier, SplitAfter on a hyphen, and
return parts[1] when there are more than two parts, the empty string
otherwise. -/
def getGitRef (id : String) : String :=
  let parts := splitAfterChar (findNumDashWord id.data) '-'
  if parts.length > 2 then
    String.mk (parts.getD 1 [])
  else
    ""

/-- Attempt to match the Go pattern Projects-d+ anchored at the head of the
list: the literal text, then a maximal nonempty digit run. -/
def matchProjectsAt (l : List Char) : Option (List Char) :=
  let pre := "Projects-".data
  if pre.isPrefixOf l then
    let ds := (l.drop pre.length).takeWhile Char.isDigit
    if ds.isEmpty then none else some (pre ++ ds)
  else none

/-- regexp.FindString for the Go pattern Projects-d+: the match at the
leftmost position where one exists, the empty string otherwise. -/
def findProjectsID : List Char → List Char
  | [] => []
  | c :: t =>
    match matchProjectsAt (c :: t) with
    | some m => m
    | none => findProjectsID t

/-- Project-ID extraction used by the deployment-process fallback paths:
FindString for Projects-d+ over the stored identifier. -/
def findProjectsIDStr (id : String) : String :=
  String.mk (findProjectsID id.data)

/-- The deployments.DeploymentProcess API entity, restricted to the fields
this provider reads or writes. Step content is kept abstract as a list of
step payloads. Fields left out of a Go struct literal take their zero value
(empty string, empty list, 0). -/
structure DeploymentProcess where
  id : String
  projectID : String
  branch : String
  steps : List String
  version : Int
  links : List (String × String)
  deriving DecidableEq

/-- Persistence settings type of a project: version-controlled or database. -/
inductive PersistenceSettingsType
  | versionControlled
  | database
  deriving DecidableEq

/-- The projects.Project API entity, restricted to the fields this provider
reads. PersistenceSettings is a pointer in Go, hence an Option here. -/
structure Project where
  id : String
  deploymentProcessID : String
  persistenceSettings : Option PersistenceSettingsType
  deriving DecidableEq

/-- The guard the handlers use on every version-control branch: the
persistence settings are non-nil and of the version-controlled type. -/
def Project.isVersionControlled (p : Project) : Bool :=
  match p.persistenceSettings with
  | some PersistenceSettingsType.versionControlled => true
  | _ => false

/-- Terraform state/configuration record for the deployment-process
resource, following its schema: id, project_id, branch, step, version. -/
structure DPResourceData where
  id : String
  projectID : String
  branch : String
  steps : List String
  version : Int
  deriving DecidableEq

/-- Modelled from the spec: expandDeploymentProcess (the builder for this
resource, not under src/) translates the configuration block into an API
request payload; the handlers later overwrite its id, links and version. -/
def expandDeploymentProcess (d : DPResourceData) : DeploymentProcess :=
  { id := d.id, projectID := d.projectID, branch := d.branch,
    steps := d.steps, version := d.version, links := [] }

/-- Modelled from the spec: setDeploymentProcess (the flattener for this
resource, not under src/) translates an API response object back into
Terraform-visible state; the identifier is managed separately by the
handlers. -/
def setDeploymentProcess (d : DPResourceData) (p : DeploymentProcess) : DPResourceData :=
  { d with projectID := p.projectID, branch := p.branch,
           steps := p.steps, version := p.version }

/-- The project trigger API entity (Filter and Action fields inlined),
restricted to the fields this provider reads or writes. -/
structure ProjectTrigger where
  id : String
  name : String
  projectID : String
  shouldRedeploy : Bool
  eventGroups : List String
  eventCategories : List String
  roles : List String
  environmentIDs : List String
  deriving DecidableEq

/-- Retention period of the lifecycle API package: unit, quantity to keep,
and the should-keep-forever flag. -/
structure RetentionPeriod where
  unit : String
  quantityToKeep : Int
  shouldKeepForever : Bool
  deriving DecidableEq

/-- A lifecycle phase of the API package. The retention policies are
pointers in Go, hence Options here. -/
structure Phase where
  id : String
  name : String
  minimumEnvironmentsBeforePromotion : Int
  isOptionalPhase : Bool
  automaticDeploymentTargets : List String
  optionalDeploymentTargets : List String
  releaseRetentionPolicy : Option RetentionPeriod
  tentacleRetentionPolicy : Option RetentionPeriod
  deriving DecidableEq

/-- The lifecycle API entity. -/
structure Lifecycle where
  id : String
  name : String
  description : String
  phases : List Phase
  releaseRetentionPolicy : RetentionPeriod
  tentacleRetentionPolicy : RetentionPeriod
  deriving DecidableEq

/-- One call issued to the remote API client, with its argument. -/
inductive ApiCall
  | projectsGetByID (id : String)
  | processesGetByID (id : String)
  | processesGet (projectID : String) (gitRef : String)
  | processesUpdate (payload : DeploymentProcess)
  | processesDeleteByID (id : String)
  | triggersAdd (t : ProjectTrigger)
  | triggersGetByID (id : String)
  | triggersUpdate (t : ProjectTrigger)
  | triggersDeleteByID (id : String)
  | lifecyclesAdd (l : Lifecycle)
  | lifecyclesGetByID (id : String)
  | lifecyclesUpdate (l : Lifecycle)
  | lifecyclesDeleteByID (id : String)
  deriving DecidableEq

/-- Whether a call is one of the remote DeleteByID operations of the client. -/
def isRemoteDelete : ApiCall → Bool
  | ApiCall.processesDeleteByID _ => true
  | ApiCall.triggersDeleteByID _ => true
  | ApiCall.lifecyclesDeleteByID _ => true
  | _ => false

/-- Modelled from the spec: which remote deployment processes exist after an
API call. The remote side models deployment processes as always-existing, so
Update overwrites content without removing the entity, reads change nothing,
and only DeleteByID removes an entity. -/
def processesAfterCall (existing : List String) : ApiCall → List String
  | ApiCall.processesDeleteByID i => existing.erase i
  | _ => existing

/-- Remote deployment processes existing after a whole trace of API calls. -/
def processesAfterTrace (existing : List String) (calls : List ApiCall) : List String :=
  calls.foldl processesAfterCall existing

/-- Result of one CRUD handler invocation: the diagnostic (none on success),
the local resource state afterwards, and the API calls issued, in order. -/
structure HandlerResult (σ : Type) where
  diag : Option Diag
  state : σ
  calls : List ApiCall
  deriving DecidableEq

/-- Oracle for the deployment-process handlers: the responses the remote API
client gives to each call the handlers can make. -/
structure DPClient where
  projectsGetByID : String → Except ApiErr Project
  processesGetByID : String → Except ApiErr DeploymentProcess
  processesGet : Project → String → Except ApiErr DeploymentProcess
  processesUpdate : DeploymentProcess → Except ApiErr DeploymentProcess

/-- Modelled from the spec: errors.DeleteFromState (internal/errors, not
under src/) drops the record from state silently: it clears the local
identifier and returns no diagnostic. -/
def deleteFromState (d : DPResourceData) : Option Diag × DPResourceData :=
  (none, { d with id := "" })

/-- Modelled from the spec: errors.ProcessApiError (internal/errors, not
under src/) treats a not-found during Read as external drift, dropping the
record silently, and surfaces any other remote API error as a diagnostic. -/
def processApiError (d : DPResourceData) (e : ApiErr) : Option Diag × DPResourceData :=
  match e with
  | ApiErr.notFound => (none, { d with id := "" })
  | ApiErr.other m => (some (Diag.fromApiErr (ApiErr.other m)), d)

/-- Shared tail of Create-like submission: copy links and version from the
fetched current entity onto the payload and submit the client Update, then
flatten the response. Used by resourceDeploymentProcessUpdate. -/
def dpUpdateTail (c : DPClient) (d : DPResourceData) (dp current : DeploymentProcess)
    (calls : List ApiCall) : HandlerResult DPResourceData :=
  let payload := { dp with links := current.links, version := current.version }
  match c.processesUpdate payload with
  | Except.error e => ⟨some (Diag.fromApiErr e), d, calls ++ [ApiCall.processesUpdate payload]⟩
  | Except.ok updated => ⟨none, setDeploymentProcess d updated, calls ++ [ApiCall.processesUpdate payload]⟩

/-- resourceDeploymentProcessCreate: resolve the owning project; fetch the
current process by (project, branch) when the project is version-controlled,
by the deployment-process ID of the project otherwise; copy id, links and version
onto the payload; submit an Update; flatten; then set the local identifier
to the composite form for version-controlled projects and to the server ID
otherwise. -/
def resourceDeploymentProcessCreate (c : DPClient) (d : DPResourceData) : HandlerResult DPResourceData :=
  let deploymentProcess := expandDeploymentProcess d
  match c.projectsGetByID deploymentProcess.projectID with
  | Except.error e => ⟨some (Diag.fromApiErr e), d, [ApiCall.projectsGetByID deploymentProcess.projectID]⟩
  | Except.ok project =>
    let fetchCall :=
      if project.isVersionControlled then ApiCall.processesGet project.id deploymentProcess.branch
      else ApiCall.processesGetByID project.deploymentProcessID
    let fetched :=
      if project.isVersionControlled then c.processesGet project deploymentProcess.branch
      else c.processesGetByID project.deploymentProcessID
    match fetched with
    | Except.error e => ⟨some (Diag.fromApiErr e), d, [ApiCall.projectsGetByID deploymentProcess.projectID, fetchCall]⟩
    | Except.ok current =>
      let payload := { deploymentProcess with id := current.id, links := current.links, version := current.version }
      match c.processesUpdate payload with
      | Except.error e =>
        ⟨some (Diag.fromApiErr e), d,
          [ApiCall.projectsGetByID deploymentProcess.projectID, fetchCall, ApiCall.processesUpdate payload]⟩
      | Except.ok created =>
        let d1 := setDeploymentProcess d created
        let newId :=
          if project.isVersionControlled then
            "deploymentprocess-" ++ created.projectID ++ "-" ++ deploymentProcess.branch
          else created.id
        ⟨none, { d1 with id := newId },
          [ApiCall.projectsGetByID deploymentProcess.projectID, fetchCall, ApiCall.processesUpdate payload]⟩

/-- The payload the Delete handler submits: a fresh DeploymentProcess
struct literal carrying only the stored identifier and the version and links of the current entity, every other field at its Go zero value. -/
def dpDeletePayload (id : String) (current : DeploymentProcess) : DeploymentProcess :=
  { id := id, projectID := "", branch := "", steps := [],
    version := current.version, links := current.links }

/-- resourceDeploymentProcessDelete: resolve the current entity by direct ID,
falling back to project + git ref; submit an Update carrying only the
version, links and the stored identifier (an emptied process); then clear
the local identifier. No remote DeleteByID is ever called. -/
def resourceDeploymentProcessDelete (c : DPClient) (d : DPResourceData) : HandlerResult DPResourceData :=
  match c.processesGetByID d.id with
  | Except.ok current =>
    let payload := dpDeletePayload d.id current
    let calls := [ApiCall.processesGetByID d.id, ApiCall.processesUpdate payload]
    match c.processesUpdate payload with
    | Except.error e => ⟨some (Diag.fromApiErr e), d, calls⟩
    | Except.ok _ => ⟨none, { d with id := "" }, calls⟩
  | Except.error _ =>
    let projectID := findProjectsIDStr d.id
    match c.projectsGetByID projectID with
    | Except.error e =>
      ⟨some (Diag.fromApiErr e), d, [ApiCall.processesGetByID d.id, ApiCall.projectsGetByID projectID]⟩
    | Except.ok project =>
      let gitRef := getGitRef d.id
      match c.processesGet project gitRef with
      | Except.error e =>
        ⟨some (Diag.fromApiErr e), d,
          [ApiCall.processesGetByID d.id, ApiCall.projectsGetByID projectID,
           ApiCall.processesGet project.id gitRef]⟩
      | Except.ok current =>
        let payload := dpDeletePayload d.id current
        let calls := [ApiCall.processesGetByID d.id, ApiCall.projectsGetByID projectID,
                      ApiCall.processesGet project.id gitRef, ApiCall.processesUpdate payload]
        match c.processesUpdate payload with
        | Except.error e => ⟨some (Diag.fromApiErr e), d, calls⟩
        | Except.ok _ => ⟨none, { d with id := "" }, calls⟩

/-- resourceDeploymentProcessRead: try the direct ID lookup; on failure
extract the project ID (Projects-d+) from the identifier, resolve the
project (remote errors going through processApiError), extract the git ref
and fetch by (project, ref); if that also fails, drop the record from state
silently via deleteFromState. -/
def resourceDeploymentProcessRead (c : DPClient) (d : DPResourceData) : HandlerResult DPResourceData :=
  match c.processesGetByID d.id with
  | Except.ok deploymentProcess =>
    ⟨none, setDeploymentProcess d deploymentProcess, [ApiCall.processesGetByID d.id]⟩
  | Except.error _ =>
    let projectID := findProjectsIDStr d.id
    match c.projectsGetByID projectID with
    | Except.error e =>
      let r := processApiError d e
      ⟨r.1, r.2, [ApiCall.processesGetByID d.id, ApiCall.projectsGetByID projectID]⟩
    | Except.ok project =>
      let gitRef := getGitRef d.id
      match c.processesGet project gitRef with
      | Except.ok deploymentProcess =>
        ⟨none, setDeploymentProcess d deploymentProcess,
          [ApiCall.processesGetByID d.id, ApiCall.projectsGetByID projectID,
           ApiCall.processesGet project.id gitRef]⟩
      | Except.error _ =>
        let r := deleteFromState d
        ⟨r.1, r.2,
          [ApiCall.processesGetByID d.id, ApiCall.projectsGetByID projectID,
           ApiCall.processesGet project.id gitRef]⟩

/-- resourceDeploymentProcessUpdate: expand the configuration; try the
direct ID lookup; on failure extract the project ID from the identifier,
resolve the project, and compare the configured branch with the git ref
recovered from the identifier, failing fatally when they differ and the ref
is nonempty; for a version-controlled project rewrite the identifier to the
composite form; fetch by (project, branch); finally copy links and version
from the current entity and submit the client Update. -/
def resourceDeploymentProcessUpdate (c : DPClient) (d : DPResourceData) : HandlerResult DPResourceData :=
  let deploymentProcess := expandDeploymentProcess d
  match c.processesGetByID d.id with
  | Except.ok current =>
    dpUpdateTail c d deploymentProcess current [ApiCall.processesGetByID d.id]
  | Except.error _ =>
    let projectID := findProjectsIDStr d.id
    match c.projectsGetByID projectID with
    | Except.error e =>
      ⟨some (Diag.fromApiErr e), d, [ApiCall.processesGetByID d.id, ApiCall.projectsGetByID projectID]⟩
    | Except.ok project =>
      let gitRef := getGitRef d.id
      if deploymentProcess.branch != gitRef && gitRef != "" then
        ⟨some (Diag.errorf "you cannot change a deployment processes branch. instead create a new resource with the new branch and, if required, destroy the previous one"), d,
          [ApiCall.processesGetByID d.id, ApiCall.projectsGetByID projectID]⟩
      else
        let deploymentProcess2 :=
          if project.isVersionControlled then
            { deploymentProcess with id := "deploymentprocess-" ++ projectID ++ "-" ++ deploymentProcess.branch }
          else deploymentProcess
        let d2 :=
          if project.isVersionControlled then { d with id := deploymentProcess2.id } else d
        match c.processesGet project deploymentProcess2.branch with
        | Except.error e =>
          ⟨some (Diag.fromApiErr e), d2,
            [ApiCall.processesGetByID d.id, ApiCall.projectsGetByID projectID,
             ApiCall.processesGet project.id deploymentProcess2.branch]⟩
        | Except.ok current =>
          dpUpdateTail c d2 deploymentProcess2 current
            [ApiCall.processesGetByID d.id, ApiCall.projectsGetByID projectID,
             ApiCall.processesGet project.id deploymentProcess2.branch]

/-- Terraform state/configuration record for the project deployment-target
trigger resource, following its schema. -/
structure TriggerResourceData where
  id : String
  name : String
  projectID : String
  shouldRedeploy : Bool
  eventGroups : List String
  eventCategories : List String
  roles : List String
  environmentIDs : List String
  deriving DecidableEq

/-- Modelled from the spec: membership test a designated helper
(validateAllSliceItemsInSlice, not under src/) uses on each slice item. -/
def sliceContains : List String → String → Bool
  | [], _ => false
  | x :: rest, v => x == v || sliceContains rest v

/-- Modelled from the spec: validateAllSliceItemsInSlice (helper not under
src/) checks that every item of the first slice occurs in the second; it
returns the first offending value paired with false, or true when all items
are valid. -/
def validateAllSliceItemsInSlice : List String → List String → String × Bool
  | [], _ => ("", true)
  | x :: rest, valid =>
    if sliceContains valid x then validateAllSliceItemsInSlice rest valid
    else (x, false)

/-- The fixed enumeration the event_groups values are validated against. -/
def validEventGroups : List String :=
  ["Machine", "MachineCritical", "MachineAvailableForDeployment",
   "MachineUnavailableForDeployment", "MachineHealthChanged"]

/-- The fixed enumeration the event_categories values are validated
against. -/
def validEventCategories : List String :=
  ["MachineCleanupFailed", "MachineAdded", "MachineDeploymentRelatedPropertyWasUpdated",
   "MachineDisabled", "MachineEnabled", "MachineHealthy", "MachineUnavailable",
   "MachineUnhealthy", "MachineHasWarnings"]

/-- Go fmt %v rendering of a string slice: the items space-separated inside
square brackets. -/
def goStringSliceRepr (xs : List String) : String :=
  "[" ++ String.intercalate " " xs ++ "]"

/-- Modelled from the spec: NewProjectDeploymentTargetTrigger (external API
client constructor) builds a trigger payload from name, project ID and the
redeploy flag; the remaining arguments are passed as nil by the caller. -/
def NewProjectDeploymentTargetTrigger (name projectID : String) (shouldRedeploy : Bool)
    (roles eventGroups eventCategories : List String) : ProjectTrigger :=
  { id := "", name := name, projectID := projectID, shouldRedeploy := shouldRedeploy,
    eventGroups := eventGroups, eventCategories := eventCategories,
    roles := roles, environmentIDs := [] }

/-- Modelled from the spec: AddEventGroups (external API client method)
appends event groups to the trigger filter. -/
def AddEventGroups (t : ProjectTrigger) (gs : List String) : ProjectTrigger :=
  { t with eventGroups := t.eventGroups ++ gs }

/-- Modelled from the spec: AddEventCategories (external API client method)
appends event categories to the trigger filter. -/
def AddEventCategories (t : ProjectTrigger) (cs : List String) : ProjectTrigger :=
  { t with eventCategories := t.eventCategories ++ cs }

/-- buildProjectDeploymentTargetTriggerResource: construct the trigger from
name, project_id and should_redeploy; when event_groups is present (GetOk:
the list is nonempty) validate it against the fixed enumeration, failing
with an error naming the offending value; likewise for event_categories;
then populate roles and environment_ids when present. -/
def buildProjectDeploymentTargetTriggerResource (d : TriggerResourceData) :
    Except String ProjectTrigger :=
  let t := NewProjectDeploymentTargetTrigger d.name d.projectID d.shouldRedeploy [] [] []
  let step1 : Except String ProjectTrigger :=
    if d.eventGroups.isEmpty then Except.ok t
    else
      match validateAllSliceItemsInSlice d.eventGroups validEventGroups with
      | (invalidValue, false) =>
        Except.error ("Invalid value for event_groups. " ++ invalidValue ++ " not in "
          ++ goStringSliceRepr validEventGroups)
      | (_, true) => Except.ok (AddEventGroups t d.eventGroups)
  match step1 with
  | Except.error e => Except.error e
  | Except.ok t1 =>
    let step2 : Except String ProjectTrigger :=
      if d.eventCategories.isEmpty then Except.ok t1
      else
        match validateAllSliceItemsInSlice d.eventCategories validEventCategories with
        | (invalidValue, false) =>
          Except.error ("Invalid value for event_categories. " ++ invalidValue ++ " not in "
            ++ goStringSliceRepr validEventCategories)
        | (_, true) => Except.ok (AddEventCategories t1 d.eventCategories)
    match step2 with
    | Except.error e => Except.error e
    | Except.ok t2 =>
      let t3 := if d.roles.isEmpty then t2 else { t2 with roles := d.roles }
      let t4 := if d.environmentIDs.isEmpty then t3 else { t3 with environmentIDs := d.environmentIDs }
      Except.ok t4

/-- Oracle for the trigger handlers. GetByID mirrors the Go pair of results:
an optional entity and an optional error, either of which can be nil. -/
structure TriggerClient where
  add : ProjectTrigger → Except ApiErr ProjectTrigger
  getByID : String → Option ProjectTrigger × Option ApiErr
  update : ProjectTrigger → Except ApiErr ProjectTrigger
  deleteByID : String → Option ApiErr

/-- resourceProjectDeploymentTargetTriggerCreate: build (a build error is
returned as a diagnostic before any API call), submit Add, and set the local
identifier to the returned ID unless that ID is empty. -/
def resourceProjectDeploymentTargetTriggerCreate (c : TriggerClient) (d : TriggerResourceData) :
    HandlerResult TriggerResourceData :=
  match buildProjectDeploymentTargetTriggerResource d with
  | Except.error e => ⟨some (Diag.fromErrMsg e), d, []⟩
  | Except.ok projectTrigger =>
    match c.add projectTrigger with
    | Except.error e => ⟨some (Diag.fromApiErr e), d, [ApiCall.triggersAdd projectTrigger]⟩
    | Except.ok resource =>
      if resource.id == "" then ⟨none, d, [ApiCall.triggersAdd projectTrigger]⟩
      else ⟨none, { d with id := resource.id }, [ApiCall.triggersAdd projectTrigger]⟩

/-- resourceProjectDeploymentTargetTriggerRead: fetch by ID; a client error
becomes a diagnostic; a nil entity without error clears the local identifier
and succeeds; otherwise the entity fields are projected into state. -/
def resourceProjectDeploymentTargetTriggerRead (c : TriggerClient) (d : TriggerResourceData) :
    HandlerResult TriggerResourceData :=
  match c.getByID d.id with
  | (_, some e) => ⟨some (Diag.fromApiErr e), d, [ApiCall.triggersGetByID d.id]⟩
  | (none, none) => ⟨none, { d with id := "" }, [ApiCall.triggersGetByID d.id]⟩
  | (some resource, none) =>
    ⟨none,
      { d with environmentIDs := resource.environmentIDs,
               eventGroups := resource.eventGroups,
               eventCategories := resource.eventCategories,
               name := resource.name,
               roles := resource.roles,
               shouldRedeploy := resource.shouldRedeploy },
      [ApiCall.triggersGetByID d.id]⟩

/-- resourceProjectDeploymentTargetTriggerUpdate: build (a build error is
returned as a diagnostic before any API call), set the payload ID from
state, submit Update, and set the local identifier from the response. -/
def resourceProjectDeploymentTargetTriggerUpdate (c : TriggerClient) (d : TriggerResourceData) :
    HandlerResult TriggerResourceData :=
  match buildProjectDeploymentTargetTriggerResource d with
  | Except.error e => ⟨some (Diag.fromErrMsg e), d, []⟩
  | Except.ok projectTrigger =>
    let projectTrigger2 := { projectTrigger with id := d.id }
    match c.update projectTrigger2 with
    | Except.error e => ⟨some (Diag.fromApiErr e), d, [ApiCall.triggersUpdate projectTrigger2]⟩
    | Except.ok resource => ⟨none, { d with id := resource.id }, [ApiCall.triggersUpdate projectTrigger2]⟩

/-- resourceProjectDeploymentTargetTriggerDelete: submit DeleteByID; an
error becomes a diagnostic with the state untouched; on success the local
identifier is cleared. -/
def resourceProjectDeploymentTargetTriggerDelete (c : TriggerClient) (d : TriggerResourceData) :
    HandlerResult TriggerResourceData :=
  match c.deleteByID d.id with
  | some e => ⟨some (Diag.fromApiErr e), d, [ApiCall.triggersDeleteByID d.id]⟩
  | none => ⟨none, { d with id := "" }, [ApiCall.triggersDeleteByID d.id]⟩

/-- One retention-period block of the lifecycle configuration/state, with
the schema field keys quantity_to_keep, should_keep_forever and unit. -/
structure RetentionRecord where
  quantityToKeep : Int
  shouldKeepForever : Bool
  unit : String
  deriving DecidableEq

/-- One phase block of the lifecycle configuration/state. The id is
computed; the per-phase retention entries hold what flattenPhase stores
there (the raw API retention value, an Option mirroring the Go pointer). -/
structure PhaseRecord where
  automaticDeploymentTargets : List String
  id : String
  isOptionalPhase : Bool
  minimumEnvironmentsBeforePromotion : Int
  name : String
  optionalDeploymentTargets : List String
  releaseRetentionPolicy : Option RetentionPeriod
  tentacleRetentionPolicy : Option RetentionPeriod
  deriving DecidableEq

/-- Terraform state/configuration record for the lifecycle resource: name,
description, the ordered phase list, and the two retention-period block
lists. -/
structure LifecycleResourceData where
  id : String
  name : String
  description : String
  phase : List PhaseRecord
  releaseRetentionPolicy : List RetentionRecord
  tentacleRetentionPolicy : List RetentionRecord
  deriving DecidableEq

/-- Modelled from the spec: NewLifecycle (external API client constructor)
builds a lifecycle payload carrying the given name, the remaining fields
starting from their zero values. -/
def NewLifecycle (name : String) : Lifecycle :=
  { id := "", name := name, description := "", phases := [],
    releaseRetentionPolicy := { unit := "", quantityToKeep := 0, shouldKeepForever := false },
    tentacleRetentionPolicy := { unit := "", quantityToKeep := 0, shouldKeepForever := false } }

/-- getRetentionPeriod: when the block list for the key is present (GetOk:
nonempty) and has exactly one entry, build the API retention period from its
unit and quantity_to_keep. The Go struct literal omits ShouldKeepForever, so
it takes the Go zero value false. -/
def getRetentionPeriod (blocks : List RetentionRecord) : Option RetentionPeriod :=
  match blocks with
  | [tfRetentionItem] =>
    some { unit := tfRetentionItem.unit,
           quantityToKeep := tfRetentionItem.quantityToKeep,
           shouldKeepForever := false }
  | _ => none

/-- buildPhaseResource: build the API phase from name, promotion threshold,
optional-phase flag and the two target lists (nil target slices are
normalized to empty, which is inherent to List here). The per-phase
retention blocks of the configuration are not read. -/
def buildPhaseResource (tfPhase : PhaseRecord) : Phase :=
  { id := "", name := tfPhase.name,
    minimumEnvironmentsBeforePromotion := tfPhase.minimumEnvironmentsBeforePromotion,
    isOptionalPhase := tfPhase.isOptionalPhase,
    automaticDeploymentTargets := tfPhase.automaticDeploymentTargets,
    optionalDeploymentTargets := tfPhase.optionalDeploymentTargets,
    releaseRetentionPolicy := none, tentacleRetentionPolicy := none }

/-- buildLifecycleResource: a new lifecycle from the configured name, the
description when present, each retention policy when its block parses, and
the phases built in configuration order. -/
def buildLifecycleResource (d : LifecycleResourceData) : Lifecycle :=
  let lifecycle := NewLifecycle d.name
  let lifecycle :=
    if d.description == "" then lifecycle else { lifecycle with description := d.description }
  let lifecycle :=
    match getRetentionPeriod d.releaseRetentionPolicy with
    | some r => { lifecycle with releaseRetentionPolicy := r }
    | none => lifecycle
  let lifecycle :=
    match getRetentionPeriod d.tentacleRetentionPolicy with
    | some r => { lifecycle with tentacleRetentionPolicy := r }
    | none => lifecycle
  { lifecycle with phases := d.phase.map buildPhaseResource }

/-- flattenPhase: a single-element list holding the fields of the phase. -/
def flattenPhase (p : Phase) : List PhaseRecord :=
  [{ automaticDeploymentTargets := p.automaticDeploymentTargets, id := p.id,
     isOptionalPhase := p.isOptionalPhase,
     minimumEnvironmentsBeforePromotion := p.minimumEnvironmentsBeforePromotion,
     name := p.name, optionalDeploymentTargets := p.optionalDeploymentTargets,
     releaseRetentionPolicy := p.releaseRetentionPolicy,
     tentacleRetentionPolicy := p.tentacleRetentionPolicy }]

/-- flattenRetentionPeriod: a single-element list holding unit,
quantity_to_keep and should_keep_forever. -/
def flattenRetentionPeriod (r : RetentionPeriod) : List RetentionRecord :=
  [{ quantityToKeep := r.quantityToKeep, shouldKeepForever := r.shouldKeepForever,
     unit := r.unit }]

/-- flattenLifecycle: set description and name, then for each phase in order
set the phase key to the single-element flattening of that phase (each iteration
overwriting the previous value), then set both retention keys and the
identifier. -/
def flattenLifecycle (d : LifecycleResourceData) (lifecycle : Lifecycle) : LifecycleResourceData :=
  let d := { d with description := lifecycle.description, name := lifecycle.name }
  let d := lifecycle.phases.foldl (fun st p => { st with phase := flattenPhase p }) d
  let d := { d with releaseRetentionPolicy := flattenRetentionPeriod lifecycle.releaseRetentionPolicy,
                    tentacleRetentionPolicy := flattenRetentionPeriod lifecycle.tentacleRetentionPolicy }
  { d with id := lifecycle.id }

/-- Oracle for the lifecycle handlers. -/
structure LifecycleClient where
  add : Lifecycle → Except ApiErr Lifecycle
  getByID : String → Except ApiErr Lifecycle
  update : Lifecycle → Except ApiErr Lifecycle
  deleteByID : String → Option ApiErr

/-- resourceLifecycleCreate: build, submit Add, flatten the response. -/
def resourceLifecycleCreate (c : LifecycleClient) (d : LifecycleResourceData) :
    HandlerResult LifecycleResourceData :=
  let lifecycle := buildLifecycleResource d
  match c.add lifecycle with
  | Except.error e => ⟨some (Diag.fromApiErr e), d, [ApiCall.lifecyclesAdd lifecycle]⟩
  | Except.ok createdLifecycle =>
    ⟨none, flattenLifecycle d createdLifecycle, [ApiCall.lifecyclesAdd lifecycle]⟩

/-- resourceLifecycleRead: fetch by ID, flatten the response. -/
def resourceLifecycleRead (c : LifecycleClient) (d : LifecycleResourceData) :
    HandlerResult LifecycleResourceData :=
  match c.getByID d.id with
  | Except.error e => ⟨some (Diag.fromApiErr e), d, [ApiCall.lifecyclesGetByID d.id]⟩
  | Except.ok lifecycle =>
    ⟨none, flattenLifecycle d lifecycle, [ApiCall.lifecyclesGetByID d.id]⟩

/-- resourceLifecycleUpdate: build, set the payload ID from state, submit
Update, flatten the response. -/
def resourceLifecycleUpdate (c : LifecycleClient) (d : LifecycleResourceData) :
    HandlerResult LifecycleResourceData :=
  let lifecycle := { buildLifecycleResource d with id := d.id }
  match c.update lifecycle with
  | Except.error e => ⟨some (Diag.fromApiErr e), d, [ApiCall.lifecyclesUpdate lifecycle]⟩
  | Except.ok updatedLifecycle =>
    ⟨none, flattenLifecycle d updatedLifecycle, [ApiCall.lifecyclesUpdate lifecycle]⟩

/-- resourceLifecycleDelete: submit DeleteByID; an error becomes a
diagnostic with the state untouched; on success the local identifier is
cleared. -/
def resourceLifecycleDelete (c : LifecycleClient) (d : LifecycleResourceData) :
    HandlerResult LifecycleResourceData :=
  match c.deleteByID d.id with
  | some e => ⟨some (Diag.fromApiErr e), d, [ApiCall.lifecyclesDeleteByID d.id]⟩
  | none => ⟨none, { d with id := "" }, [ApiCall.lifecyclesDeleteByID d.id]⟩

/-- Whether a call is a deployment-process Update submission. -/
def isProcessesUpdateCall : ApiCall → Bool
  | ApiCall.processesUpdate _ => true
  | _ => false

/-- Scenario for the branch-change Update: local state created under branch
main (composite identifier), reconfigured to branch develop. -/
def c1State : DPResourceData :=
  { id := "deploymentprocess-Projects-123-main", projectID := "Projects-123",
    branch := "develop", steps := ["step-a"], version := 0 }

/-- The version-controlled project owning the c1 scenario process. -/
def c1Project : Project :=
  { id := "Projects-123", deploymentProcessID := "deploymentprocess-Projects-123",
    persistenceSettings := some PersistenceSettingsType.versionControlled }

/-- The process the c1 scenario server returns from the (project, ref)
fetch. -/
def c1Fetched : DeploymentProcess :=
  { id := "deploymentprocess-Projects-123", projectID := "Projects-123", branch := "main",
    steps := ["remote-step"], version := 7, links := [("Self", "/api/dp")] }

/-- Client for the c1 scenario: the direct ID lookup fails (the composite
identifier is not a server ID), the project resolves, the (project, ref)
fetch and the update succeed. -/
def c1Client : DPClient :=
  { projectsGetByID := fun i => if i == "Projects-123" then Except.ok c1Project else Except.error ApiErr.notFound,
    processesGetByID := fun _ => Except.error ApiErr.notFound,
    processesGet := fun _ _ => Except.ok c1Fetched,
    processesUpdate := fun p => Except.ok p }

/-- Version-controlled project for the Create-identifier scenario. -/
def c4Project : Project :=
  { id := "Projects-123", deploymentProcessID := "deploymentprocess-Projects-123",
    persistenceSettings := some PersistenceSettingsType.versionControlled }

/-- Database-persisted project for the Create-identifier scenario. -/
def c4ProjectDB : Project :=
  { id := "Projects-77", deploymentProcessID := "deploymentprocess-Projects-77",
    persistenceSettings := some PersistenceSettingsType.database }

/-- Current process the c4 version-controlled server returns. -/
def c4Current : DeploymentProcess :=
  { id := "deploymentprocess-Projects-123-vcs", projectID := "Projects-123", branch := "main",
    steps := [], version := 4, links := [("Self", "/api/a")] }

/-- Current process the c4 database server returns. -/
def c4CurrentDB : DeploymentProcess :=
  { id := "deploymentprocess-Projects-77", projectID := "Projects-77", branch := "",
    steps := [], version := 2, links := [] }

/-- Fresh configuration for Create on the version-controlled project. -/
def c4Config : DPResourceData :=
  { id := "", projectID := "Projects-123", branch := "main", steps := ["s1"], version := 0 }

/-- Fresh configuration for Create on the database project. -/
def c4ConfigDB : DPResourceData :=
  { id := "", projectID := "Projects-77", branch := "", steps := ["s2"], version := 0 }

/-- Client for the version-controlled Create scenario; Update echoes its
payload. -/
def c4Client : DPClient :=
  { projectsGetByID := fun _ => Except.ok c4Project,
    processesGetByID := fun _ => Except.ok c4Current,
    processesGet := fun _ _ => Except.ok c4Current,
    processesUpdate := fun p => Except.ok p }

/-- Client for the database Create scenario; Update echoes its payload. -/
def c4ClientDB : DPClient :=
  { projectsGetByID := fun _ => Except.ok c4ProjectDB,
    processesGetByID := fun _ => Except.ok c4CurrentDB,
    processesGet := fun _ _ => Except.ok c4CurrentDB,
    processesUpdate := fun p => Except.ok p }

/-- Local state for the Delete scenario: a plain server identifier. -/
def c5State : DPResourceData :=
  { id := "deploymentprocess-Projects-9", projectID := "Projects-9", branch := "",
    steps := ["s"], version := 3 }

/-- Current process the c5 server returns from the direct ID lookup. -/
def c5Current : DeploymentProcess :=
  { id := "deploymentprocess-Projects-9", projectID := "Projects-9", branch := "",
    steps := ["old"], version := 3, links := [("Self", "/api/b")] }

/-- Client for the Delete scenario: direct lookup and update succeed. -/
def c5Client : DPClient :=
  { projectsGetByID := fun _ => Except.error ApiErr.notFound,
    processesGetByID := fun i => if i == "deploymentprocess-Projects-9" then Except.ok c5Current else Except.error ApiErr.notFound,
    processesGet := fun _ _ => Except.error ApiErr.notFound,
    processesUpdate := fun p => Except.ok p }

/-- Local state for the Read not-found scenario. -/
def c6State : DPResourceData :=
  { id := "deploymentprocess-Projects-5-main", projectID := "Projects-5", branch := "main",
    steps := [], version := 0 }

/-- Client where the direct lookup and the project resolution both return
not-found. -/
def c6ClientA : DPClient :=
  { projectsGetByID := fun _ => Except.error ApiErr.notFound,
    processesGetByID := fun _ => Except.error ApiErr.notFound,
    processesGet := fun _ _ => Except.error ApiErr.notFound,
    processesUpdate := fun p => Except.ok p }

/-- Project for the Read fallback scenario where the project resolves. -/
def c6Project : Project :=
  { id := "Projects-5", deploymentProcessID := "deploymentprocess-Projects-5",
    persistenceSettings := some PersistenceSettingsType.versionControlled }

/-- Client where the direct lookup fails, the project resolves, and the
(project, ref) fetch fails. -/
def c6ClientB : DPClient :=
  { projectsGetByID := fun _ => Except.ok c6Project,
    processesGetByID := fun _ => Except.error (ApiErr.other "boom"),
    processesGet := fun _ _ => Except.error (ApiErr.other "down"),
    processesUpdate := fun p => Except.ok p }

/-- Trigger configuration whose event_groups holds a value outside the
enumeration. -/
def c3BadGroups : TriggerResourceData :=
  { id := "", name := "t1", projectID := "Projects-1", shouldRedeploy := false,
    eventGroups := ["Machine", "BadValue"], eventCategories := [],
    roles := [], environmentIDs := [] }

/-- Trigger configuration with valid event_groups and an event_categories
value outside the enumeration. -/
def c3BadCategories : TriggerResourceData :=
  { id := "", name := "t2", projectID := "Projects-1", shouldRedeploy := true,
    eventGroups := ["Machine"], eventCategories := ["MachineAdded", "NotACategory"],
    roles := ["web"], environmentIDs := [] }

/-- Benign trigger client used to show no API call is issued on a build
failure. -/
def c3Client : TriggerClient :=
  { add := fun t => Except.ok t,
    getByID := fun _ => (none, none),
    update := fun t => Except.ok t,
    deleteByID := fun _ => none }

/-- Trigger client whose GetByID reports the entity as missing: no error
and a nil entity, the not-found convention of this client. -/
def c9Client : TriggerClient :=
  { add := fun t => Except.ok t,
    getByID := fun _ => (none, none),
    update := fun t => Except.ok t,
    deleteByID := fun _ => none }

/-- Local trigger state for the Read not-found scenario. -/
def c9State : TriggerResourceData :=
  { id := "ProjectTriggers-1", name := "t", projectID := "Projects-1", shouldRedeploy := false,
    eventGroups := [], eventCategories := [], roles := [], environmentIDs := [] }

/-- Trigger client whose DeleteByID fails. -/
def c10TriggerErr : TriggerClient :=
  { add := fun t => Except.ok t,
    getByID := fun _ => (none, none),
    update := fun t => Except.ok t,
    deleteByID := fun _ => some (ApiErr.other "denied") }

/-- Trigger client whose DeleteByID succeeds. -/
def c10TriggerOk : TriggerClient :=
  { add := fun t => Except.ok t,
    getByID := fun _ => (none, none),
    update := fun t => Except.ok t,
    deleteByID := fun _ => none }

/-- Local trigger state for the Delete scenarios. -/
def c10TriggerState : TriggerResourceData :=
  { id := "ProjectTriggers-7", name := "t", projectID := "Projects-1", shouldRedeploy := false,
    eventGroups := [], eventCategories := [], roles := [], environmentIDs := [] }

/-- Lifecycle client whose DeleteByID fails. -/
def c10LifecycleErr : LifecycleClient :=
  { add := fun l => Except.ok l,
    getByID := fun _ => Except.error ApiErr.notFound,
    update := fun l => Except.ok l,
    deleteByID := fun _ => some (ApiErr.other "refused") }

/-- Lifecycle client whose DeleteByID succeeds. -/
def c10LifecycleOk : LifecycleClient :=
  { add := fun l => Except.ok l,
    getByID := fun _ => Except.error ApiErr.notFound,
    update := fun l => Except.ok l,
    deleteByID := fun _ => none }

/-- Local lifecycle state for the Delete scenarios. -/
def c10LifecycleState : LifecycleResourceData :=
  { id := "Lifecycles-7", name := "l", description := "",
    phase := [], releaseRetentionPolicy := [], tentacleRetentionPolicy := [] }

/-- A phase configuration block with the given name and default values for
every other field. -/
def c7PhaseBlock (nm : String) : PhaseRecord :=
  { automaticDeploymentTargets := [], id := "", isOptionalPhase := false,
    minimumEnvironmentsBeforePromotion := 0, name := nm, optionalDeploymentTargets := [],
    releaseRetentionPolicy := none, tentacleRetentionPolicy := none }

/-- Lifecycle configuration with two ordered phases A then B. -/
def c7Config : LifecycleResourceData :=
  { id := "", name := "L", description := "",
    phase := [c7PhaseBlock "A", c7PhaseBlock "B"],
    releaseRetentionPolicy := [], tentacleRetentionPolicy := [] }

/-- Echo server for the lifecycle round trip: Add assigns the server ID and
stores the payload; GetByID returns the stored entity. -/
def c7Client : LifecycleClient :=
  { add := fun l => Except.ok { l with id := "Lifecycles-1" },
    getByID := fun i =>
      if i == "Lifecycles-1" then Except.ok { buildLifecycleResource c7Config with id := "Lifecycles-1" }
      else Except.error ApiErr.notFound,
    update := fun l => Except.ok l,
    deleteByID := fun _ => none }

/-- Lifecycle configuration whose release retention block sets
quantity_to_keep 5, should_keep_forever true and unit Days. -/
def c8Config : LifecycleResourceData :=
  { id := "", name := "L2", description := "",
    phase := [],
    releaseRetentionPolicy := [{ quantityToKeep := 5, shouldKeepForever := true, unit := "Days" }],
    tentacleRetentionPolicy := [] }

theorem sliceContains_iff (l : List String) (v : String) :
    sliceContains l v = true ↔ v ∈ l := by
  induction l with
  | nil => simp [sliceContains]
  | cons x rest ih =>
    simp only [sliceContains, Bool.or_eq_true, beq_iff_eq, ih, List.mem_cons]
    constructor
    · rintro (h | h)
      · exact Or.inl h.symm
      · exact Or.inr h
    · rintro (h | h)
      · exact Or.inl h.symm
      · exact Or.inr h

theorem validate_ok (items valid : List String) (h : ∀ x ∈ items, x ∈ valid) :
    validateAllSliceItemsInSlice items valid = ("", true) := by
  induction items with
  | nil => rfl
  | cons a t ih =>
    have ha : sliceContains valid a = true :=
      (sliceContains_iff valid a).mpr (h a (by simp))
    simp only [validateAllSliceItemsInSlice, ha, if_true]
    exact ih (fun x hx => h x (by simp [hx]))

theorem validate_finds_bad (items valid : List String)
    (h : ∃ x, x ∈ items ∧ x ∉ valid) :
    ∃ w, w ∈ items ∧ w ∉ valid ∧ validateAllSliceItemsInSlice items valid = (w, false) := by
  induction items with
  | nil =>
    obtain ⟨x, hx, _⟩ := h
    cases hx
  | cons a t ih =>
    by_cases ha : a ∈ valid
    · have hc : sliceContains valid a = true := (sliceContains_iff valid a).mpr ha
      obtain ⟨x, hx, hxv⟩ := h
      have hxt : x ∈ t := by
        rcases List.mem_cons.mp hx with hxa | hxt
        · exact absurd ha (hxa ▸ hxv)
        · exact hxt
      obtain ⟨w, hw1, hw2, hw3⟩ := ih ⟨x, hxt, hxv⟩
      refine ⟨w, List.mem_cons_of_mem a hw1, hw2, ?_⟩
      simp only [validateAllSliceItemsInSlice, hc, if_true]
      exact hw3
    · have hc : ¬ (sliceContains valid a = true) :=
        fun hcc => ha ((sliceContains_iff valid a).mp hcc)
      refine ⟨a, by simp, ha, ?_⟩
      simp only [validateAllSliceItemsInSlice]
      rw [if_neg hc]

theorem isEmpty_false_of_mem {α : Type} {x : α} {l : List α} (h : x ∈ l) :
    l.isEmpty = false := by
  cases l with
  | nil => cases h
  | cons a t => rfl

/-- Claim C2: on a composite identifier of the form deploymentprocess plus
project ID plus branch, the git-ref extraction is claimed to return the
branch segment. The match of the pattern d+-w+ is 123-main whose SplitAfter
parts are 123- and main, so the branch segment main is the second part; yet
getGitRef requires more than two parts and therefore returns the empty
string, never the branch. -/
theorem C2_getGitRef_returns_empty_on_composite_id :
    (splitAfterChar (findNumDashWord "deploymentprocess-Projects-123-main".data) '-').map String.mk
      = ["123-", "main"] ∧
    getGitRef "deploymentprocess-Projects-123-main" = "" := by
  constructor
  · decide
  · decide

/-- Claim C1: an Update that falls back to the version-control path with a
configuration branch (develop) differing from the branch encoded in the
identifier (main) is claimed to fail fatally without calling the client
Update. Because getGitRef returns the empty string on every identifier, the
guard never fires: the handler succeeds and submits the client Update. -/
theorem C1_update_branch_guard_is_dead :
    c1State.id = "deploymentprocess-Projects-123-main" ∧
    c1State.branch = "develop" ∧
    getGitRef c1State.id = "" ∧
    (resourceDeploymentProcessUpdate c1Client c1State).diag = none ∧
    (resourceDeploymentProcessUpdate c1Client c1State).calls.any isProcessesUpdateCall = true := by
  refine ⟨rfl, rfl, by decide, by decide, by decide⟩

/-- Claim C7: Create followed by Read is claimed to preserve an ordered
two-phase configuration. Against an echo server, the flattened state after
Create and after Read holds exactly one phase, the last one (B), because
flattenLifecycle overwrites the phase key on each loop iteration. -/
theorem C7_flatten_keeps_only_last_phase :
    c7Config.phase.map PhaseRecord.name = ["A", "B"] ∧
    (resourceLifecycleCreate c7Client c7Config).diag = none ∧
    (resourceLifecycleCreate c7Client c7Config).state.phase.map PhaseRecord.name = ["B"] ∧
    (resourceLifecycleRead c7Client (resourceLifecycleCreate c7Client c7Config).state).diag = none ∧
    (resourceLifecycleRead c7Client (resourceLifecycleCreate c7Client c7Config).state).state.phase.map
      PhaseRecord.name = ["B"] := by
  refine ⟨rfl, by decide, by decide, by decide, by decide⟩

/-- Claim C8: the built API retention period is claimed to carry all three
configured fields. For the configured block with quantity 5, unit Days and
keep-forever true, the built payload carries false for the keep-forever
flag: the Go struct literal in getRetentionPeriod omits ShouldKeepForever. -/
theorem C8_retention_drops_keep_forever :
    c8Config.releaseRetentionPolicy.map RetentionRecord.shouldKeepForever = [true] ∧
    getRetentionPeriod c8Config.releaseRetentionPolicy
      = some { unit := "Days", quantityToKeep := 5, shouldKeepForever := false } ∧
    (buildLifecycleResource c8Config).releaseRetentionPolicy.shouldKeepForever = false := by
  refine ⟨rfl, rfl, rfl⟩

/-- Claim C9: a trigger Read whose GetByID reports the entity missing (nil
entity, nil error, the not-found convention of this client) clears the local
identifier and returns no diagnostic. -/
theorem C9_trigger_read_not_found (c : TriggerClient) (d : TriggerResourceData)
    (h : c.getByID d.id = (none, none)) :
    resourceProjectDeploymentTargetTriggerRead c d
      = ⟨none, { d with id := "" }, [ApiCall.triggersGetByID d.id]⟩ := by
  simp only [resourceProjectDeploymentTargetTriggerRead, h]

theorem C9_trigger_read_not_found_witness :
    c9Client.getByID c9State.id = (none, none) ∧
    resourceProjectDeploymentTargetTriggerRead c9Client c9State
      = ⟨none, { c9State with id := "" }, [ApiCall.triggersGetByID c9State.id]⟩ :=
  ⟨rfl, C9_trigger_read_not_found c9Client c9State rfl⟩

/-- Claim C10: for the trigger and lifecycle Delete handlers, a failing
DeleteByID surfaces the error as a diagnostic and leaves the local state
untouched, while the identifier is cleared exactly when DeleteByID
succeeds. -/
theorem C10_delete_atomic_local_state (ct : TriggerClient) (dt : TriggerResourceData)
    (cl : LifecycleClient) (dl : LifecycleResourceData) :
    (∀ e, ct.deleteByID dt.id = some e →
      resourceProjectDeploymentTargetTriggerDelete ct dt
        = ⟨some (Diag.fromApiErr e), dt, [ApiCall.triggersDeleteByID dt.id]⟩) ∧
    (ct.deleteByID dt.id = none →
      resourceProjectDeploymentTargetTriggerDelete ct dt
        = ⟨none, { dt with id := "" }, [ApiCall.triggersDeleteByID dt.id]⟩) ∧
    (∀ e, cl.deleteByID dl.id = some e →
      resourceLifecycleDelete cl dl
        = ⟨some (Diag.fromApiErr e), dl, [ApiCall.lifecyclesDeleteByID dl.id]⟩) ∧
    (cl.deleteByID dl.id = none →
      resourceLifecycleDelete cl dl
        = ⟨none, { dl with id := "" }, [ApiCall.lifecyclesDeleteByID dl.id]⟩) := by
  refine ⟨?_, ?_, ?_, ?_⟩
  · intro e he
    simp only [resourceProjectDeploymentTargetTriggerDelete, he]
  · intro he
    simp only [resourceProjectDeploymentTargetTriggerDelete, he]
  · intro e he
    simp only [resourceLifecycleDelete, he]
  · intro he
    simp only [resourceLifecycleDelete, he]

theorem C10_delete_atomic_local_state_witness :
    (c10TriggerErr.deleteByID c10TriggerState.id = some (ApiErr.other "denied") ∧
      resourceProjectDeploymentTargetTriggerDelete c10TriggerErr c10TriggerState
        = ⟨some (Diag.fromApiErr (ApiErr.other "denied")), c10TriggerState,
           [ApiCall.triggersDeleteByID c10TriggerState.id]⟩) ∧
    (resourceProjectDeploymentTargetTriggerDelete c10TriggerOk c10TriggerState
        = ⟨none, { c10TriggerState with id := "" }, [ApiCall.triggersDeleteByID c10TriggerState.id]⟩) ∧
    (resourceLifecycleDelete c10LifecycleErr c10LifecycleState
        = ⟨some (Diag.fromApiErr (ApiErr.other "refused")), c10LifecycleState,
           [ApiCall.lifecyclesDeleteByID c10LifecycleState.id]⟩) ∧
    (resourceLifecycleDelete c10LifecycleOk c10LifecycleState
        = ⟨none, { c10LifecycleState with id := "" }, [ApiCall.lifecyclesDeleteByID c10LifecycleState.id]⟩) :=
  ⟨⟨rfl, (C10_delete_atomic_local_state c10TriggerErr c10TriggerState c10LifecycleErr
      c10LifecycleState).1 (ApiErr.other "denied") rfl⟩,
   (C10_delete_atomic_local_state c10TriggerOk c10TriggerState c10LifecycleOk
      c10LifecycleState).2.1 rfl,
   (C10_delete_atomic_local_state c10TriggerErr c10TriggerState c10LifecycleErr
      c10LifecycleState).2.2.1 (ApiErr.other "refused") rfl,
   (C10_delete_atomic_local_state c10TriggerOk c10TriggerState c10LifecycleOk
      c10LifecycleState).2.2.2 rfl⟩

/-- Claim C3: a trigger configuration holding an event_groups value outside
the fixed enumeration, or valid event_groups and an event_categories value
outside its enumeration, makes the Build fail with an error whose message
contains the offending value, and Create and Update return that diagnostic
without issuing any API call. -/
theorem C3_trigger_enum_validation (c : TriggerClient) (d : TriggerResourceData) :
    ((∃ v, v ∈ d.eventGroups ∧ v ∉ validEventGroups) →
      ∃ msg, buildProjectDeploymentTargetTriggerResource d = Except.error msg ∧
        (∃ w a b, w ∈ d.eventGroups ∧ w ∉ validEventGroups ∧ msg = a ++ w ++ b) ∧
        resourceProjectDeploymentTargetTriggerCreate c d = ⟨some (Diag.fromErrMsg msg), d, []⟩ ∧
        resourceProjectDeploymentTargetTriggerUpdate c d = ⟨some (Diag.fromErrMsg msg), d, []⟩) ∧
    ((∀ v ∈ d.eventGroups, v ∈ validEventGroups) →
      (∃ v, v ∈ d.eventCategories ∧ v ∉ validEventCategories) →
      ∃ msg, buildProjectDeploymentTargetTriggerResource d = Except.error msg ∧
        (∃ w a b, w ∈ d.eventCategories ∧ w ∉ validEventCategories ∧ msg = a ++ w ++ b) ∧
        resourceProjectDeploymentTargetTriggerCreate c d = ⟨some (Diag.fromErrMsg msg), d, []⟩ ∧
        resourceProjectDeploymentTargetTriggerUpdate c d = ⟨some (Diag.fromErrMsg msg), d, []⟩) := by
  constructor
  · intro h
    obtain ⟨w, hw1, hw2, hw3⟩ := validate_finds_bad d.eventGroups validEventGroups h
    have hne : d.eventGroups.isEmpty = false := isEmpty_false_of_mem hw1
    have hb : buildProjectDeploymentTargetTriggerResource d
        = Except.error ("Invalid value for event_groups. " ++ w ++ " not in "
            ++ goStringSliceRepr validEventGroups) := by
      simp [buildProjectDeploymentTargetTriggerResource, hne, hw3]
    refine ⟨_, hb,
      ⟨w, "Invalid value for event_groups. ",
        " not in " ++ goStringSliceRepr validEventGroups, hw1, hw2, ?_⟩, ?_, ?_⟩
    · exact String.append_assoc ("Invalid value for event_groups. " ++ w) " not in "
        (goStringSliceRepr validEventGroups)
    · simp [resourceProjectDeploymentTargetTriggerCreate, hb]
    · simp [resourceProjectDeploymentTargetTriggerUpdate, hb]
  · intro hall h
    obtain ⟨w, hw1, hw2, hw3⟩ := validate_finds_bad d.eventCategories validEventCategories h
    have hnec : d.eventCategories.isEmpty = false := isEmpty_false_of_mem hw1
    have hb : buildProjectDeploymentTargetTriggerResource d
        = Except.error ("Invalid value for event_categories. " ++ w ++ " not in "
            ++ goStringSliceRepr validEventCategories) := by
      cases hEmpty : d.eventGroups.isEmpty with
      | true => simp [buildProjectDeploymentTargetTriggerResource, hEmpty, hnec, hw3]
      | false =>
        have hvok : validateAllSliceItemsInSlice d.eventGroups validEventGroups = ("", true) :=
          validate_ok d.eventGroups validEventGroups hall
        simp [buildProjectDeploymentTargetTriggerResource, hEmpty, hvok, hnec, hw3]
    refine ⟨_, hb,
      ⟨w, "Invalid value for event_categories. ",
        " not in " ++ goStringSliceRepr validEventCategories, hw1, hw2, ?_⟩, ?_, ?_⟩
    · exact String.append_assoc ("Invalid value for event_categories. " ++ w) " not in "
        (goStringSliceRepr validEventCategories)
    · simp [resourceProjectDeploymentTargetTriggerCreate, hb]
    · simp [resourceProjectDeploymentTargetTriggerUpdate, hb]

theorem C3_trigger_enum_validation_witness :
    (∃ msg, buildProjectDeploymentTargetTriggerResource c3BadGroups = Except.error msg ∧
      (∃ w a b, w ∈ c3BadGroups.eventGroups ∧ w ∉ validEventGroups ∧ msg = a ++ w ++ b) ∧
      resourceProjectDeploymentTargetTriggerCreate c3Client c3BadGroups
        = ⟨some (Diag.fromErrMsg msg), c3BadGroups, []⟩ ∧
      resourceProjectDeploymentTargetTriggerUpdate c3Client c3BadGroups
        = ⟨some (Diag.fromErrMsg msg), c3BadGroups, []⟩) ∧
    (∃ msg, buildProjectDeploymentTargetTriggerResource c3BadCategories = Except.error msg ∧
      (∃ w a b, w ∈ c3BadCategories.eventCategories ∧ w ∉ validEventCategories ∧ msg = a ++ w ++ b) ∧
      resourceProjectDeploymentTargetTriggerCreate c3Client c3BadCategories
        = ⟨some (Diag.fromErrMsg msg), c3BadCategories, []⟩ ∧
      resourceProjectDeploymentTargetTriggerUpdate c3Client c3BadCategories
        = ⟨some (Diag.fromErrMsg msg), c3BadCategories, []⟩) :=
  ⟨(C3_trigger_enum_validation c3Client c3BadGroups).1
      ⟨"BadValue", by decide, by decide⟩,
   (C3_trigger_enum_validation c3Client c3BadCategories).2
      (by decide) ⟨"NotACategory", by decide, by decide⟩⟩

/-- Claim C4: a successful deployment-process Create sets the local
identifier to deploymentprocess- plus the project ID of the created process plus
the configured branch when the project is version-controlled, and to the
server-assigned ID of the created process otherwise. -/
theorem C4_create_identifier (c : DPClient) (d : DPResourceData) :
    (∀ project current created,
      c.projectsGetByID d.projectID = Except.ok project →
      project.isVersionControlled = true →
      c.processesGet project d.branch = Except.ok current →
      c.processesUpdate { expandDeploymentProcess d with
        id := current.id, links := current.links, version := current.version }
        = Except.ok created →
      (resourceDeploymentProcessCreate c d).diag = none ∧
      (resourceDeploymentProcessCreate c d).state.id
        = "deploymentprocess-" ++ created.projectID ++ "-" ++ d.branch) ∧
    (∀ project current created,
      c.projectsGetByID d.projectID = Except.ok project →
      project.isVersionControlled = false →
      c.processesGetByID project.deploymentProcessID = Except.ok current →
      c.processesUpdate { expandDeploymentProcess d with
        id := current.id, links := current.links, version := current.version }
        = Except.ok created →
      (resourceDeploymentProcessCreate c d).diag = none ∧
      (resourceDeploymentProcessCreate c d).state.id = created.id) := by
  have e1 : (expandDeploymentProcess d).projectID = d.projectID := rfl
  have e2 : (expandDeploymentProcess d).branch = d.branch := rfl
  constructor
  · intro project current created h1 hvc h2 h3
    simp only [expandDeploymentProcess] at h3
    constructor
    · simp [resourceDeploymentProcessCreate, expandDeploymentProcess, e1, e2, h1, hvc, h2, h3]
    · simp [resourceDeploymentProcessCreate, expandDeploymentProcess, e1, e2, h1, hvc, h2, h3]
  · intro project current created h1 hvc h2 h3
    simp only [expandDeploymentProcess] at h3
    constructor
    · simp [resourceDeploymentProcessCreate, expandDeploymentProcess, e1, e2, h1, hvc, h2, h3]
    · simp [resourceDeploymentProcessCreate, expandDeploymentProcess, e1, e2, h1, hvc, h2, h3]

theorem C4_create_identifier_witness :
    ((resourceDeploymentProcessCreate c4Client c4Config).diag = none ∧
      (resourceDeploymentProcessCreate c4Client c4Config).state.id
        = "deploymentprocess-Projects-123-main") ∧
    ((resourceDeploymentProcessCreate c4ClientDB c4ConfigDB).diag = none ∧
      (resourceDeploymentProcessCreate c4ClientDB c4ConfigDB).state.id
        = "deploymentprocess-Projects-77") := by
  have hvc := (C4_create_identifier c4Client c4Config).1 c4Project c4Current
    ({ expandDeploymentProcess c4Config with
       id := c4Current.id, links := c4Current.links, version := c4Current.version })
    rfl rfl rfl rfl
  have hdb := (C4_create_identifier c4ClientDB c4ConfigDB).2 c4ProjectDB c4CurrentDB
    ({ expandDeploymentProcess c4ConfigDB with
       id := c4CurrentDB.id, links := c4CurrentDB.links, version := c4CurrentDB.version })
    rfl rfl rfl rfl
  refine ⟨⟨hvc.1, ?_⟩, ⟨hdb.1, ?_⟩⟩
  · rw [hvc.2]
    rfl
  · rw [hdb.2]
    rfl

/-- Claim C5: a successful deployment-process Delete clears the local
identifier, submits an Update whose payload carries only the stored
identifier, the links and the version of the current entity (step content,
project ID and branch at their zero values), never issues a remote
DeleteByID, and leaves the set of existing remote deployment processes
unchanged. -/
theorem C5_delete_resets_remote (c : DPClient) (d : DPResourceData)
    (hok : (resourceDeploymentProcessDelete c d).diag = none) :
    (resourceDeploymentProcessDelete c d).state.id = "" ∧
    (∃ p, ApiCall.processesUpdate p ∈ (resourceDeploymentProcessDelete c d).calls) ∧
    (∀ p, ApiCall.processesUpdate p ∈ (resourceDeploymentProcessDelete c d).calls →
      p.id = d.id ∧ p.steps = [] ∧ p.projectID = "" ∧ p.branch = "") ∧
    (∀ call ∈ (resourceDeploymentProcessDelete c d).calls, isRemoteDelete call = false) ∧
    (∀ existing, processesAfterTrace existing (resourceDeploymentProcessDelete c d).calls
      = existing) := by
  cases h1 : c.processesGetByID d.id with
  | ok current =>
    cases h2 : c.processesUpdate (dpDeletePayload d.id current) with
    | error e =>
      simp only [resourceDeploymentProcessDelete, h1, h2] at hok
      simp at hok
    | ok updated =>
      simp only [resourceDeploymentProcessDelete, h1, h2]
      refine ⟨by simp, ⟨dpDeletePayload d.id current, by simp⟩, ?_, ?_, ?_⟩
      · intro p hp
        simp at hp
        subst hp
        exact ⟨rfl, rfl, rfl, rfl⟩
      · intro call hc
        simp at hc
        rcases hc with rfl | rfl <;> rfl
      · intro existing
        simp [processesAfterTrace, processesAfterCall]
  | error e0 =>
    cases h2 : c.projectsGetByID (findProjectsIDStr d.id) with
    | error e =>
      simp only [resourceDeploymentProcessDelete, h1, h2] at hok
      simp at hok
    | ok project =>
      cases h3 : c.processesGet project (getGitRef d.id) with
      | error e =>
        simp only [resourceDeploymentProcessDelete, h1, h2, h3] at hok
        simp at hok
      | ok current =>
        cases h4 : c.processesUpdate (dpDeletePayload d.id current) with
        | error e =>
          simp only [resourceDeploymentProcessDelete, h1, h2, h3, h4] at hok
          simp at hok
        | ok updated =>
          simp only [resourceDeploymentProcessDelete, h1, h2, h3, h4]
          refine ⟨by simp, ⟨dpDeletePayload d.id current, by simp⟩, ?_, ?_, ?_⟩
          · intro p hp
            simp at hp
            subst hp
            exact ⟨rfl, rfl, rfl, rfl⟩
          · intro call hc
            simp at hc
            rcases hc with rfl | rfl | rfl | rfl <;> rfl
          · intro existing
            simp [processesAfterTrace, processesAfterCall]

theorem C5_delete_resets_remote_witness :
    (resourceDeploymentProcessDelete c5Client c5State).diag = none ∧
    ((resourceDeploymentProcessDelete c5Client c5State).state.id = "" ∧
     (∃ p, ApiCall.processesUpdate p ∈ (resourceDeploymentProcessDelete c5Client c5State).calls) ∧
     (∀ p, ApiCall.processesUpdate p ∈ (resourceDeploymentProcessDelete c5Client c5State).calls →
       p.id = c5State.id ∧ p.steps = [] ∧ p.projectID = "" ∧ p.branch = "") ∧
     (∀ call ∈ (resourceDeploymentProcessDelete c5Client c5State).calls,
       isRemoteDelete call = false) ∧
     (∀ existing, processesAfterTrace existing
       (resourceDeploymentProcessDelete c5Client c5State).calls = existing)) :=
  ⟨by decide, C5_delete_resets_remote c5Client c5State (by decide)⟩

/-- Claim C6: a deployment-process Read whose direct lookup fails and whose
fallback also fails — the project resolution returning not-found, or the
project resolving and the (project, ref) fetch failing — clears the local
identifier and returns no diagnostic. -/
theorem C6_read_not_found_drops_state (c : DPClient) (d : DPResourceData) (e1 : ApiErr)
    (h1 : c.processesGetByID d.id = Except.error e1) :
    (c.projectsGetByID (findProjectsIDStr d.id) = Except.error ApiErr.notFound →
      (resourceDeploymentProcessRead c d).diag = none ∧
      (resourceDeploymentProcessRead c d).state.id = "") ∧
    (∀ project e2, c.projectsGetByID (findProjectsIDStr d.id) = Except.ok project →
      c.processesGet project (getGitRef d.id) = Except.error e2 →
      (resourceDeploymentProcessRead c d).diag = none ∧
      (resourceDeploymentProcessRead c d).state.id = "") := by
  constructor
  · intro h2
    constructor <;> simp [resourceDeploymentProcessRead, h1, h2, processApiError]
  · intro project e2 h2 h3
    constructor <;> simp [resourceDeploymentProcessRead, h1, h2, h3, deleteFromState]

theorem C6_read_not_found_drops_state_witness :
    ((resourceDeploymentProcessRead c6ClientA c6State).diag = none ∧
      (resourceDeploymentProcessRead c6ClientA c6State).state.id = "") ∧
    ((resourceDeploymentProcessRead c6ClientB c6State).diag = none ∧
      (resourceDeploymentProcessRead c6ClientB c6State).state.id = "") :=
  ⟨(C6_read_not_found_drops_state c6ClientA c6State ApiErr.notFound rfl).1 rfl,
   (C6_read_not_found_drops_state c6ClientB c6State (ApiErr.other "boom") rfl).2
      c6Project (ApiErr.other "down") rfl rfl⟩

end Octopusdeploy
